import Mathlib

/-!
Verification model of the EMF Service Connector queued telemetry pipeline
(`src/__init__.py`, `src/api.py`, `src/const.py`).

Shallow embedding conventions:
* Python numbers (float/int) are modelled by `ℚ` / `ℤ`; every arithmetic
  operation performed by the pipeline (×1000, ÷1000, ×100, comparison with 1.0)
  is exact on the values of interest, so `ℚ` models the float computation
  faithfully there.
* Python `dict` queue items are association lists `List (String × JVal)` in
  insertion order.
* `None`-able strings/ints are `Option String` / `Option Nat`.
* `_now_utc_iso()` is modelled by a `now : String` parameter: the timestamp the
  host clock returns during the call.
* `_since_local_str` (ISO → local display) is modelled by an abstract
  `localize : String → String` parameter; no claim inspects its output.
* Python `float(...)` parsing inside `_parse_float` is modelled by an oracle
  parameter `pf : String → Option ℚ`; no claim depends on the numeric grammar.
* Side effects are made explicit state: the issue registry entry is
  `issue : Option String`, the persisted store document is `saved : List Item`,
  dispatcher notifications are counted in `notifications`, and every submission
  attempt (the payload handed to `api.submit_energy_data`) is appended to
  `attempts`.
-/

/-- JSON-ish values appearing in queue items / payloads. -/
inductive JVal where
  | int (z : ℤ)
  | num (q : ℚ)
  | str (s : String)
deriving DecidableEq

/-- A queue item: a Python dict in insertion order (`_build_queue_item`). -/
abbrev Item := List (String × JVal)

/-- The per-entry status dict initialised in `_ensure_entry_data`. -/
structure Status where
  last_attempt_utc : Option String := none
  last_success_utc : Option String := none
  last_error_utc : Option String := none
  last_error_message : Option String := none
  outage_since_utc : Option String := none
  last_http_status : Option Nat := none
  last_response_text : Option String := none
  queue_len : Nat := 0
  dropped_422_count : Nat := 0
  dropped_queue_full_count : Nat := 0
  last_drop_reason : Option String := none
deriving DecidableEq

/-- Configuration surface used by the pipeline (`cfg` merged dict). -/
structure Config where
  api_key : String
  site_fid : String
  max_len : Int
  max_send : Int
deriving DecidableEq

/-- Outcome of one `api.submit_energy_data` call: an HTTP response
(`(resp.status, text[:300])`) or a raised transport error. -/
inductive Resp where
  | http (status : Nat) (text : String)
  | netErr (msg : String)
deriving DecidableEq

/-- The mutable per-entry state touched by the pipeline, with the external
side effects (issue registry, store, dispatcher, fired payloads) explicit. -/
structure DrainState where
  queue : List Item := []        -- oldest .. newest, as in the source
  status : Status := {}
  issue : Option String := none  -- the standing repair issue, `none` = deleted
  saved : List Item := []        -- last persisted store document's queue
  notifications : Nat := 0       -- `_notify_status_updated` invocations
  attempts : List Item := []     -- payloads handed to `submit_energy_data`
deriving DecidableEq

/-- Python `str.strip()`: drop leading and trailing whitespace. (Python strips
a slightly larger Unicode class; the difference is immaterial here.) -/
def pyStrip (s : String) : String :=
  String.mk (((s.toList.dropWhile Char.isWhitespace).reverse.dropWhile
    Char.isWhitespace).reverse)

/-- `_mask_secret`: mask all but the last 4 characters of a stripped secret. -/
def maskSecret (s0 : Option String) : Option String :=
  match s0 with
  | none => none
  | some s =>
    if s = "" then none
    else
      let t := pyStrip s
      if t.length ≤ 4 then some (String.mk (List.replicate t.length '*'))
      else some (String.mk (List.replicate (t.length - 4) '*' ++ t.toList.drop (t.length - 4)))

/-- `_scale_value`: convert `value` from `from_unit` to `to_unit`. -/
def scaleValue (value : ℚ) (fromUnit : Option String) (toUnit : Option String) : ℚ :=
  match toUnit with
  | none => value
  | some tu0 =>
    let fu := pyStrip (fromUnit.getD "")
    let tu := pyStrip tu0
    if fu = "" ∨ fu = tu then value
    else if tu = "W" ∧ fu = "kW" then value * 1000
    else if tu = "W" ∧ fu = "MW" then value * 1000000
    else if tu = "kWh" ∧ fu = "Wh" then value / 1000
    else if tu = "kWh" ∧ fu = "MWh" then value * 1000
    else if tu = "V" ∧ fu = "mV" then value / 1000
    else if tu = "V" ∧ fu = "kV" then value * 1000
    else if tu = "A" ∧ fu = "mA" then value / 1000
    else if tu = "A" ∧ fu = "kA" then value * 1000
    else if tu = "°C" ∨ tu = "C" then value
    else if tu = "%" ∧ fu = "%" then value
    else if tu = "%" ∧ (fu = "" ∨ fu = "ratio" ∨ fu = "1") then
      (if value ≤ 1 then value * 100 else value)
    else value

/-- Python `round` (half-to-even), as used by `int(round(v2))`. -/
def pyRound (q : ℚ) : ℤ :=
  let fl := ⌊q⌋
  let frac := q - fl
  if frac < 1/2 then fl
  else if 1/2 < frac then fl + 1
  else if fl % 2 = 0 then fl else fl + 1

/-- Target type of an API field (`FIELD_SPECS[...]["type"]`). -/
inductive FType where
  | int
  | float
deriving DecidableEq

/-- `FIELD_SPECS` from `const.py`: field → (target unit, target type). -/
def FIELD_SPECS : String → Option (Option String × FType) := fun f =>
  if f = "em_power_grid" then some (some "W", .int)
  else if f = "em_power_consumption" then some (some "W", .int)
  else if f = "em_power_pv" then some (some "W", .int)
  else if f = "em_power_battery" then some (some "W", .int)
  else if f = "em_power_evcharger" then some (some "W", .int)
  else if f = "em_power_heatpump" then some (some "W", .int)
  else if f = "em_power_bhkw" then some (some "W", .int)
  else if f = "bat_dc_power" then some (some "W", .int)
  else if f = "bat_soc" then some (some "%", .float)
  else if f = "bat_kwh_remaining" then some (some "kWh", .float)
  else if f = "bat_dc_voltage" then some (some "V", .float)
  else if f = "bat_dc_current" then some (some "A", .float)
  else if f = "bat_dc_temperature" then some (some "°C", .float)
  else none

/-- `ADV_FIELDS` from `const.py`: (config key, API field) pairs. -/
def ADV_FIELDS : List (String × String) :=
  [("em_power_consumption_entity", "em_power_consumption"),
   ("em_power_pv_entity", "em_power_pv"),
   ("em_power_battery_entity", "em_power_battery"),
   ("em_power_evcharger_entity", "em_power_evcharger"),
   ("em_power_heatpump_entity", "em_power_heatpump"),
   ("em_power_bhkw_entity", "em_power_bhkw"),
   ("bat_soc_entity", "bat_soc"),
   ("bat_kwh_remaining_entity", "bat_kwh_remaining"),
   ("bat_dc_power_entity", "bat_dc_power"),
   ("bat_dc_voltage_entity", "bat_dc_voltage"),
   ("bat_dc_current_entity", "bat_dc_current"),
   ("bat_dc_temperature_entity", "bat_dc_temperature")]

/-- A Home Assistant state object as seen by `_convert_for_field`:
its `state` string and the `unit_of_measurement` attribute. -/
structure StateObj where
  state : String
  unit : Option String

/-- `_convert_for_field`: read, validate, parse, scale and type-coerce one
entity's state. `pf` is the float-parsing oracle (`_parse_float`),
`states` the entity registry (`hass.states.get`). -/
def convertForField (pf : String → Option ℚ) (states : String → Option StateObj)
    (entityId : String) (apiField : String) : Option JVal :=
  match (if entityId = "" then none else states entityId) with
  | none => none
  | some st =>
    let s := pyStrip st.state
    if s = "unknown" ∨ s = "unavailable" ∨ s = "" then none
    else
      match pf s with
      | none => none
      | some v =>
        let tgt := FIELD_SPECS apiField
        let targetUnit := match tgt with | some (u, _) => u | none => none
        let targetType := match tgt with | some (_, t) => t | none => .float
        let v2 := scaleValue v st.unit targetUnit
        match targetType with
        | .int => some (.int (pyRound v2))
        | .float => some (.num v2)

/-- `_build_queue_item`: build one queue item (no credentials inside).
`confGet` models `cfg.get` for entity options; `nowTs` is the already
formatted `_format_ts_utc(now)` stamp. -/
def buildQueueItem (pf : String → Option ℚ) (states : String → Option StateObj)
    (confGet : String → Option String) (nowTs : String) : Option Item :=
  match confGet "em_power_grid_entity" with
  | none => none
  | some gridEnt =>
    if gridEnt = "" then none
    else
      match convertForField pf states gridEnt "em_power_grid" with
      | none => none
      | some gridVal =>
        some ([("em_power_grid", gridVal),
               ("datapoint_ts", JVal.str nowTs),
               ("submit_cli", JVal.str "emf_0.1")] ++
          ADV_FIELDS.filterMap (fun p =>
            match confGet p.1 with
            | none => none
            | some ent =>
              if ent = "" then none
              else
                match convertForField pf states ent p.2 with
                | none => none
                | some v => some (p.2, v)))

/-- The drop-reason string of `_trim_queue`. -/
def queueFullReason : String := "queue_full (dropped oldest)"

/-- The `while len(q) > max_len` body of `_trim_queue`: pop oldest,
count the capacity drop, record the reason. -/
def trimLoop (maxLen : Nat) (q : List Item) (st : Status) : List Item × Status :=
  if q.length > maxLen then
    match q with
    | [] => ([], st)
    | _ :: rest =>
      trimLoop maxLen rest
        { st with dropped_queue_full_count := st.dropped_queue_full_count + 1,
                  last_drop_reason := some queueFullReason }
  else (q, st)
termination_by q.length

/-- `_trim_queue`: clear entirely when `max_len <= 0`, else drop oldest
items (counting them) until the length bound holds. -/
def trimQueue (maxLen : Int) (q : List Item) (st : Status) : List Item × Status :=
  if maxLen ≤ 0 then ([], st)
  else trimLoop maxLen.toNat q st

/-- The `full_payload` built at send time: credentials merged over the item. -/
def fullPayload (apiKey siteFid : String) (item : Item) : Item :=
  ("api_key", JVal.str apiKey) :: ("site_fid", JVal.str siteFid) :: item

/-- The issue message `f"Übertragung zum Service seit {since} unterbrochen: {msg}"`. -/
def outageMsg (sinceLocal errMsg : String) : String :=
  "Übertragung zum Service seit " ++ sinceLocal ++ " unterbrochen: " ++ errMsg

/-- `_safe_err_message` for a transport error: the stripped message if
non-empty, else a non-empty fallback (repr / type name in the source). -/
def safeErrMessage (m : String) : String :=
  if pyStrip m = "" then "Exception" else pyStrip m

/-- The error message of the `RuntimeError` raised on a non-2xx, non-422
HTTP response. -/
def httpFailMessage (st : Nat) (txt : String) : String :=
  "EMF submit failed: HTTP " ++ toString st ++ ": " ++ txt

/-- Classification: is the response a 2xx success? -/
def Resp.isSuccess : Resp → Bool
  | .http st _ => 200 ≤ st && st < 300
  | .netErr _ => false

/-- Classification: transient failure (non-2xx, non-422 HTTP, or transport). -/
def Resp.isTransient : Resp → Bool
  | .http st _ => !(200 ≤ st && st < 300) && st ≠ 422
  | .netErr _ => true

/-- The shared `except` handler of the drain loop: record error, open the
outage if not already open, upsert the issue. Returns the updated state. -/
def drainFail (localize : String → String) (now : String) (errMsg : String)
    (s : DrainState) : DrainState :=
  let since := s.status.outage_since_utc.getD now
  let status := { s.status with
    last_error_utc := some now,
    last_error_message := some errMsg,
    outage_since_utc := some since }
  { s with status := status, issue := some (outageMsg (localize since) errMsg) }

/-- One iteration body of the drain loop of `_try_send_queue`, given the
newest item and the submission outcome. Returns the new state and whether
the loop continues (`true` = the `continue` branches, `false` = `break`). -/
def drainStep (apiKey siteFid : String) (localize : String → String) (now : String)
    (resp : Resp) (item : Item) (s : DrainState) : DrainState × Bool :=
  let s := { s with attempts := s.attempts ++ [fullPayload apiKey siteFid item] }
  match resp with
  | .http st txt =>
    if 200 ≤ st ∧ st < 300 then
      let status := { s.status with
        last_success_utc := some now,
        last_http_status := some st,
        last_response_text := some txt,
        last_error_utc := none,
        last_error_message := none,
        outage_since_utc := none }
      let q := s.queue.dropLast
      ({ s with
          queue := q, saved := q,
          status := { status with queue_len := q.length } }, true)
    else if st = 422 then
      let status := { s.status with
        dropped_422_count := s.status.dropped_422_count + 1,
        last_drop_reason := some ("HTTP 422: " ++ txt),
        last_http_status := some st,
        last_response_text := some txt }
      let q := s.queue.dropLast
      ({ s with
          queue := q, saved := q,
          status := { status with queue_len := q.length } }, true)
    else
      let s := { s with status := { s.status with
        last_http_status := some st, last_response_text := some txt } }
      (drainFail localize now (httpFailMessage st txt) s, false)
  | .netErr msg =>
    (drainFail localize now (safeErrMessage msg) s, false)

/-- The `while q and processed_count < max_send` loop of `_try_send_queue`.
`responses` gives the outcome of the attempt made at each value of
`processed_count`; `fuel = max_send - processed` bounds the loop. -/
def drainLoop (apiKey siteFid : String) (localize : String → String)
    (responses : Nat → Resp) (now : String) (processed fuel : Nat)
    (s : DrainState) : DrainState :=
  match fuel with
  | 0 => s
  | f + 1 =>
    match s.queue.getLast? with
    | none => s
    | some item =>
      let r := drainStep apiKey siteFid localize now (responses processed) item s
      if r.2 then drainLoop apiKey siteFid localize responses now (processed + 1) f r.1
      else r.1

/-- `_try_send_queue`: the full drain call. -/
def trySendQueue (cfg : Config) (localize : String → String)
    (responses : Nat → Resp) (now : String) (s : DrainState) : DrainState :=
  let status := { s.status with
    last_attempt_utc := some now,
    last_http_status := none,
    last_response_text := none }
  let apiKey := pyStrip cfg.api_key
  let siteFid := pyStrip cfg.site_fid
  if apiKey = "" ∨ siteFid = "" then
    let since := status.outage_since_utc.getD now
    let status := { status with
      last_error_utc := some now,
      last_error_message := some "Missing api_key/site_fid",
      outage_since_utc := some since,
      queue_len := s.queue.length }
    { s with
      status := status,
      issue := some (outageMsg (localize since) "Missing api_key/site_fid"),
      notifications := s.notifications + 1 }
  else
    let qs := trimQueue cfg.max_len s.queue status
    let status := { qs.2 with queue_len := qs.1.length }
    let s := { s with queue := qs.1, status := status }
    if cfg.max_send ≤ 0 then
      { s with notifications := s.notifications + 1 }
    else
      let s := drainLoop apiKey siteFid localize responses now 0 cfg.max_send.toNat s
      let s :=
        if s.queue.isEmpty ∧ s.status.outage_since_utc = none then
          { s with issue := none }
        else s
      { s with notifications := s.notifications + 1 }

/-- `_tick`: build one item, enqueue + trim + persist (or just trim when the
queue is disabled or no item could be built), then drain. -/
def tick (cfg : Config) (localize : String → String) (responses : Nat → Resp)
    (now : String) (builtItem : Option Item) (s : DrainState) : DrainState :=
  let s :=
    if 0 < cfg.max_len ∧ builtItem.isSome then
      let q0 := s.queue ++ [builtItem.getD []]
      let qs := trimQueue cfg.max_len q0 s.status
      { s with
        queue := qs.1, saved := qs.1,
        status := { qs.2 with queue_len := qs.1.length } }
    else
      let qs := trimQueue cfg.max_len s.queue s.status
      { s with
        queue := qs.1,
        status := { qs.2 with queue_len := qs.1.length } }
  trySendQueue cfg localize responses now s

/-- `handle_clear_queue` service body for one entry: clear, persist, notify. -/
def clearQueue (s : DrainState) : DrainState :=
  { s with
    queue := [], saved := [],
    status := { s.status with queue_len := 0 },
    notifications := s.notifications + 1 }

/-- The attempt-reset part at the top of `_try_send_queue` (before the
credential check), together with the `queue_len` refresh: the state the drain
loop starts from. -/
def preDrain (now : String) (s : DrainState) : DrainState :=
  { s with
    status := { s.status with
                last_attempt_utc := some now, last_http_status := none,
                last_response_text := none, queue_len := s.queue.length } }

/-- The post-loop part of `_try_send_queue`: delete the issue when the queue
is empty with no open outage, then notify status subscribers. -/
def postDrain (L : DrainState) : DrainState :=
  let d := if L.queue.isEmpty ∧ L.status.outage_since_utc = none
           then { L with issue := none } else L
  { d with notifications := d.notifications + 1 }

/-- Test fixture: a minimal queue item. -/
def wI1 : Item := [("em_power_grid", JVal.int 1)]

/-- Test fixture: a second queue item. -/
def wI2 : Item := [("em_power_grid", JVal.int 2)]

/-- Test fixture: a third queue item. -/
def wI3 : Item := [("em_power_grid", JVal.int 3)]

/-- Test fixture: a localizer that displays a timestamp as itself. -/
def wLocal : String → String := fun t => t

/-! ## Helper lemmas about `_trim_queue` -/

lemma trimLoop_fst (n : Nat) :
    ∀ (q : List Item) (st : Status), (trimLoop n q st).1 = q.drop (q.length - n) := by
  intro q
  induction q with
  | nil => intro st; simp [trimLoop]
  | cons a rest ih =>
    intro st
    rw [trimLoop]
    by_cases h : (a :: rest).length > n
    · rw [if_pos h, ih]
      have h1 : (a :: rest).length - n = rest.length - n + 1 := by
        simp only [List.length_cons] at h ⊢; omega
      rw [h1, List.drop_succ_cons]
    · rw [if_neg h]
      have : (a :: rest).length - n = 0 := by
        simp only [List.length_cons] at h ⊢; omega
      rw [this, List.drop_zero]

lemma trimLoop_count (n : Nat) :
    ∀ (q : List Item) (st : Status),
      (trimLoop n q st).2.dropped_queue_full_count =
        st.dropped_queue_full_count + (q.length - n) := by
  intro q
  induction q with
  | nil => intro st; simp [trimLoop]
  | cons a rest ih =>
    intro st
    rw [trimLoop]
    by_cases h : (a :: rest).length > n
    · rw [if_pos h, ih]
      simp only [List.length_cons] at h ⊢
      omega
    · rw [if_neg h]
      simp only [List.length_cons] at h ⊢
      omega

lemma trimLoop_reason (n : Nat) :
    ∀ (q : List Item) (st : Status),
      (trimLoop n q st).2.last_drop_reason =
        if n < q.length then some queueFullReason else st.last_drop_reason := by
  intro q
  induction q with
  | nil => intro st; simp [trimLoop]
  | cons a rest ih =>
    intro st
    rw [trimLoop]
    by_cases h : (a :: rest).length > n
    · rw [if_pos h, ih, if_pos h]
      by_cases h2 : n < rest.length
      · rw [if_pos h2]
      · rw [if_neg h2]
    · rw [if_neg h, if_neg (by omega)]

lemma trimLoop_other (n : Nat) :
    ∀ (q : List Item) (st : Status),
      (trimLoop n q st).2.outage_since_utc = st.outage_since_utc ∧
      (trimLoop n q st).2.last_error_utc = st.last_error_utc ∧
      (trimLoop n q st).2.last_error_message = st.last_error_message ∧
      (trimLoop n q st).2.last_attempt_utc = st.last_attempt_utc ∧
      (trimLoop n q st).2.last_http_status = st.last_http_status ∧
      (trimLoop n q st).2.last_response_text = st.last_response_text ∧
      (trimLoop n q st).2.dropped_422_count = st.dropped_422_count := by
  intro q
  induction q with
  | nil => intro st; simp [trimLoop]
  | cons a rest ih =>
    intro st
    rw [trimLoop]
    by_cases h : (a :: rest).length > n
    · rw [if_pos h]; exact ih _
    · rw [if_neg h]; exact ⟨rfl, rfl, rfl, rfl, rfl, rfl, rfl⟩

lemma trimQueue_noop (m : Int) (q : List Item) (st : Status)
    (hm : 0 < m) (hq : q.length ≤ m.toNat) : trimQueue m q st = (q, st) := by
  rw [trimQueue, if_neg (by omega), trimLoop.eq_def, if_neg (by omega)]

lemma trimQueue_length (m : Int) (q : List Item) (st : Status) :
    (trimQueue m q st).1.length ≤ m.toNat := by
  rw [trimQueue]
  by_cases hm : m ≤ 0
  · rw [if_pos hm]; simp
  · rw [if_neg hm, trimLoop_fst]
    simp only [List.length_drop]
    omega

/-! ## Claim C2 — percent / ratio normalization -/

/-- C2 counterexample: a reading of `0.5` with empty source unit and target
unit `"%"` is returned unchanged (`0.5`), not multiplied by 100 to `50`:
`_scale_value` returns early on an empty source unit before the percent
heuristic is ever reached. -/
theorem c2_empty_unit_counterexample :
    scaleValue (1/2) (some "") (some "%") = 1/2 ∧ ((1:ℚ)/2 ≠ 50) :=
  ⟨rfl, by norm_num⟩

/-- C2 amended: for an empty source unit the value always passes through
unchanged (so `0.5` stays `0.5` and `75.0` stays `75.0`); the ≤ 1 → ×100
heuristic applies only to the source units `"ratio"` and `"1"`. -/
theorem c2_percent_heuristic (v : ℚ) :
    scaleValue v (some "") (some "%") = v ∧
    scaleValue v (some "ratio") (some "%") = (if v ≤ 1 then v * 100 else v) ∧
    scaleValue v (some "1") (some "%") = (if v ≤ 1 then v * 100 else v) ∧
    scaleValue (1/2) (some "ratio") (some "%") = 50 ∧
    scaleValue 75 (some "ratio") (some "%") = 75 := by
  refine ⟨rfl, rfl, rfl, ?_, ?_⟩
  · show (if (1:ℚ)/2 ≤ 1 then (1:ℚ)/2 * 100 else (1:ℚ)/2) = 50
    rw [if_pos (by norm_num)]
    norm_num
  · show (if (75:ℚ) ≤ 1 then (75:ℚ) * 100 else (75:ℚ)) = 75
    rw [if_neg (by norm_num)]

/-! ## Claim C4 — trim invariants -/

/-- C4 counterexample: `trim(0)` on a 1-item queue removes the item by
clearing the whole queue, yet the capacity-drop counter is not incremented
(the `max_len <= 0` branch calls `q.clear()` without counting), so the
counter is not incremented once per removed item. -/
theorem c4_clear_does_not_count :
    (trimQueue 0 [[("em_power_grid", JVal.int 1)]] {}).1 = [] ∧
    (trimQueue 0 [[("em_power_grid", JVal.int 1)]] {}).2.dropped_queue_full_count = 0 :=
  ⟨rfl, rfl⟩

/-- C4 amended: after `trim(max_len)` the length is at most `max(max_len, 0)`;
if `max_len ≤ 0` the queue is cleared entirely (status untouched, nothing
counted); removal is always from the oldest end (the result is a drop of the
original); and when `0 < max_len` the capacity-drop counter is incremented
once per removed item, with the drop reason recorded whenever an item was
removed. -/
theorem c4_trim_spec (m : Int) (q : List Item) (st : Status) :
    ((trimQueue m q st).1.length : Int) ≤ max m 0 ∧
    (m ≤ 0 → trimQueue m q st = ([], st)) ∧
    (∃ k, (trimQueue m q st).1 = q.drop k) ∧
    (0 < m →
      (trimQueue m q st).2.dropped_queue_full_count =
        st.dropped_queue_full_count + (q.length - (trimQueue m q st).1.length) ∧
      ((trimQueue m q st).1.length < q.length →
        (trimQueue m q st).2.last_drop_reason = some queueFullReason)) := by
  refine ⟨?_, ?_, ?_, ?_⟩
  · have h := trimQueue_length m q st
    omega
  · intro hm
    rw [trimQueue, if_pos hm]
  · rw [trimQueue]
    by_cases hm : m ≤ 0
    · rw [if_pos hm]
      exact ⟨q.length, (List.drop_length q).symm⟩
    · rw [if_neg hm, trimLoop_fst]
      exact ⟨q.length - m.toNat, rfl⟩
  · intro hm
    rw [trimQueue, if_neg (by omega)]
    constructor
    · rw [trimLoop_count, trimLoop_fst]
      simp only [List.length_drop]
      omega
    · intro hlt
      rw [trimLoop_fst] at hlt
      simp only [List.length_drop] at hlt
      rw [trimLoop_reason, if_pos (by omega)]

/-- C4 witness: `trim(-1)` on a singleton queue clears it. -/
theorem c4_trim_spec_witness :
    trimQueue (-1) [[("em_power_grid", JVal.int 1)]] {} = ([], {}) :=
  (c4_trim_spec (-1) [[("em_power_grid", JVal.int 1)]] {}).2.1 (by norm_num)

/-! ## Claim C10 — secret masking -/

/-- C10: `_mask_secret` maps `None`/empty to `None`; a stripped input of
length ≤ 4 to an all-asterisk string of the same length; a longer input to a
same-length string whose characters are all asterisks except the last 4,
which are kept — and the output always has the stripped input's length. -/
theorem c10_mask_secret :
    maskSecret none = none ∧ maskSecret (some "") = none ∧
    (∀ s : String, s ≠ "" → (pyStrip s).length ≤ 4 →
      maskSecret (some s) = some (String.mk (List.replicate (pyStrip s).length '*'))) ∧
    (∀ s : String, s ≠ "" → 4 < (pyStrip s).length →
      maskSecret (some s) = some (String.mk (List.replicate ((pyStrip s).length - 4) '*' ++
        (pyStrip s).toList.drop ((pyStrip s).length - 4)))) ∧
    (∀ s t : String, maskSecret (some s) = some t → t.length = (pyStrip s).length) := by
  refine ⟨rfl, rfl, ?_, ?_, ?_⟩
  · intro s h h4
    rw [maskSecret, if_neg h, if_pos h4]
  · intro s h h4
    rw [maskSecret, if_neg h, if_neg (by omega)]
  · intro s t h
    rw [maskSecret] at h
    by_cases he : s = ""
    · simp [he] at h
    · rw [if_neg he] at h
      by_cases h4 : (pyStrip s).length ≤ 4
      · rw [if_pos h4] at h
        cases h
        show (List.replicate (pyStrip s).length '*').length = _
        simp
      · rw [if_neg h4] at h
        cases h
        show (List.replicate ((pyStrip s).length - 4) '*' ++
          (pyStrip s).toList.drop ((pyStrip s).length - 4)).length = _
        have hl : (pyStrip s).toList.length = (pyStrip s).length := rfl
        simp [hl]

/-- C10 witness: concrete maskings of a short and a long secret. -/
theorem c10_mask_secret_witness :
    maskSecret (some "abc") = some "***" ∧
    maskSecret (some "abcdefgh") = some "****efgh" :=
  ⟨c10_mask_secret.2.2.1 "abc" (by decide) (by decide),
   c10_mask_secret.2.2.2.1 "abcdefgh" (by decide) (by decide)⟩

/-! ## Helper lemmas about the drain loop -/

lemma drainFail_attempts (l : String → String) (now e : String) (s : DrainState) :
    (drainFail l now e s).attempts = s.attempts := rfl

lemma drainStep_attempts (a b : String) (l : String → String) (now : String)
    (r : Resp) (item : Item) (s : DrainState) :
    (drainStep a b l now r item s).1.attempts = s.attempts ++ [fullPayload a b item] := by
  cases r with
  | http st txt =>
    simp only [drainStep]
    split_ifs with h1 h2 <;> rfl
  | netErr msg =>
    simp only [drainStep]
    rfl

lemma drainStep_cases (a b : String) (l : String → String) (now : String)
    (r : Resp) (item : Item) (s : DrainState) :
    ((drainStep a b l now r item s).1.queue = s.queue.dropLast ∧
     (drainStep a b l now r item s).1.saved = s.queue.dropLast ∧
     (drainStep a b l now r item s).2 = true) ∨
    ((drainStep a b l now r item s).1.queue = s.queue ∧
     (drainStep a b l now r item s).1.saved = s.saved ∧
     (drainStep a b l now r item s).2 = false) := by
  cases r with
  | http st txt =>
    simp only [drainStep]
    split_ifs with h1 h2
    · left; exact ⟨rfl, rfl, rfl⟩
    · left; exact ⟨rfl, rfl, rfl⟩
    · right; exact ⟨rfl, rfl, rfl⟩
  | netErr msg =>
    right; exact ⟨rfl, rfl, rfl⟩

lemma drainStep_notifications (a b : String) (l : String → String) (now : String)
    (r : Resp) (item : Item) (s : DrainState) :
    (drainStep a b l now r item s).1.notifications = s.notifications := by
  cases r with
  | http st txt =>
    simp only [drainStep]
    split_ifs with h1 h2 <;> rfl
  | netErr msg => rfl

lemma drainLoop_attempts_prefix (a b : String) (l : String → String)
    (responses : Nat → Resp) (now : String) :
    ∀ (fuel processed : Nat) (s : DrainState),
      ∃ t, (drainLoop a b l responses now processed fuel s).attempts = s.attempts ++ t := by
  intro fuel
  induction fuel with
  | zero => intro p s; exact ⟨[], by simp [drainLoop]⟩
  | succ f ih =>
    intro p s
    rw [drainLoop]
    cases hq : s.queue.getLast? with
    | none => exact ⟨[], by simp⟩
    | some item =>
      dsimp only
      by_cases hc : (drainStep a b l now (responses p) item s).2
      · rw [if_pos hc]
        obtain ⟨t, ht⟩ := ih (p + 1) (drainStep a b l now (responses p) item s).1
        refine ⟨fullPayload a b item :: t, ?_⟩
        rw [ht, drainStep_attempts]
        simp
      · rw [if_neg hc]
        exact ⟨[fullPayload a b item], drainStep_attempts a b l now (responses p) item s⟩

lemma drainLoop_attempts_ge (a b : String) (l : String → String)
    (responses : Nat → Resp) (now : String) (fuel processed : Nat) (s : DrainState) :
    s.attempts.length ≤ (drainLoop a b l responses now processed fuel s).attempts.length := by
  obtain ⟨t, ht⟩ := drainLoop_attempts_prefix a b l responses now fuel processed s
  rw [ht]
  simp

lemma drainLoop_sync (a b : String) (l : String → String)
    (responses : Nat → Resp) (now : String) :
    ∀ (fuel processed : Nat) (s : DrainState), s.saved = s.queue →
      (drainLoop a b l responses now processed fuel s).saved =
        (drainLoop a b l responses now processed fuel s).queue ∧
      (drainLoop a b l responses now processed fuel s).queue.length ≤ s.queue.length := by
  intro fuel
  induction fuel with
  | zero => intro p s h; simp [drainLoop, h]
  | succ f ih =>
    intro p s h
    rw [drainLoop]
    cases hq : s.queue.getLast? with
    | none => simp [h]
    | some item =>
      dsimp only
      rcases drainStep_cases a b l now (responses p) item s with ⟨h1, h2, h3⟩ | ⟨h1, h2, h3⟩
      · rw [h3, if_pos rfl]
        obtain ⟨ih1, ih2⟩ := ih (p + 1) _ (h2.trans h1.symm)
        refine ⟨ih1, le_trans ih2 ?_⟩
        rw [h1]
        exact le_trans (List.length_dropLast _ ▸ Nat.sub_le _ _) (le_refl _)
      · rw [h3, if_neg (by simp)]
        rw [h1, h2]
        exact ⟨h, le_refl _⟩

lemma drainLoop_notifications (a b : String) (l : String → String)
    (responses : Nat → Resp) (now : String) :
    ∀ (fuel processed : Nat) (s : DrainState),
      (drainLoop a b l responses now processed fuel s).notifications = s.notifications := by
  intro fuel
  induction fuel with
  | zero => intro p s; simp [drainLoop]
  | succ f ih =>
    intro p s
    rw [drainLoop]
    cases hq : s.queue.getLast? with
    | none => rfl
    | some item =>
      dsimp only
      by_cases hc : (drainStep a b l now (responses p) item s).2
      · rw [if_pos hc, ih, drainStep_notifications]
      · rw [if_neg hc, drainStep_notifications]

lemma drainLoop_empty (a b : String) (l : String → String)
    (responses : Nat → Resp) (now : String) (fuel processed : Nat) (s : DrainState)
    (h : s.queue = []) :
    drainLoop a b l responses now processed fuel s = s := by
  cases fuel with
  | zero => rfl
  | succ f => rw [drainLoop, h]; rfl


lemma drainLoop_cons (a b : String) (l : String → String) (responses : Nat → Resp)
    (now : String) (p f : Nat) (s : DrainState) (item : Item)
    (h : s.queue.getLast? = some item) :
    drainLoop a b l responses now p (f + 1) s =
      (if (drainStep a b l now (responses p) item s).2
       then drainLoop a b l responses now (p + 1) f (drainStep a b l now (responses p) item s).1
       else (drainStep a b l now (responses p) item s).1) := by
  rw [drainLoop, h]


lemma postDrain_proj (L : DrainState) :
    (postDrain L).queue = L.queue ∧ (postDrain L).saved = L.saved ∧
    (postDrain L).status = L.status ∧ (postDrain L).attempts = L.attempts ∧
    (postDrain L).notifications = L.notifications + 1 := by
  unfold postDrain
  split <;> exact ⟨rfl, rfl, rfl, rfl, rfl⟩

lemma trySendQueue_eq_drain (cfg : Config) (localize : String → String)
    (responses : Nat → Resp) (now : String) (s : DrainState)
    (hk : pyStrip cfg.api_key ≠ "") (hsf : pyStrip cfg.site_fid ≠ "")
    (hml : 0 < cfg.max_len) (hlen : s.queue.length ≤ cfg.max_len.toNat)
    (hms : 0 < cfg.max_send) :
    trySendQueue cfg localize responses now s =
      postDrain (drainLoop (pyStrip cfg.api_key) (pyStrip cfg.site_fid) localize
        responses now 0 cfg.max_send.toNat (preDrain now s)) := by
  rw [trySendQueue]
  dsimp only
  rw [if_neg (by simp [hk, hsf])]
  rw [trimQueue_noop _ _ _ hml hlen]
  dsimp only
  rw [if_neg (by omega)]
  rfl

lemma drainLoop_200_500 (a b : String) (l : String → String) (responses : Nat → Resp)
    (now t0 t1 : String) (p f : Nat) (qs : List Item) (y x : Item) (s : DrainState)
    (hq : s.queue = qs ++ [y, x])
    (h0 : responses p = .http 200 t0) (h1 : responses (p + 1) = .http 500 t1) :
    (drainLoop a b l responses now p (f + 2) s).queue = qs ++ [y] ∧
    (drainLoop a b l responses now p (f + 2) s).saved = qs ++ [y] ∧
    (drainLoop a b l responses now p (f + 2) s).status.outage_since_utc = some now ∧
    (drainLoop a b l responses now p (f + 2) s).attempts =
      s.attempts ++ [fullPayload a b x, fullPayload a b y] := by
  have hsplit : qs ++ [y, x] = (qs ++ [y]) ++ [x] := by simp
  have hx : s.queue.getLast? = some x := by
    rw [hq, hsplit]; exact List.getLast?_concat _
  have hdrop : (qs ++ [y, x]).dropLast = qs ++ [y] := by
    rw [hsplit]; exact List.dropLast_concat
  rw [show f + 2 = (f + 1) + 1 from rfl]
  rw [drainLoop_cons _ _ _ _ _ _ _ _ x hx, h0]
  simp only [drainStep]
  rw [if_pos (show (200:Nat) ≤ 200 ∧ (200:Nat) < 300 from by norm_num)]
  dsimp only
  rw [if_pos (show true = true from rfl)]
  rw [hq, hdrop]
  rw [drainLoop_cons _ _ _ _ _ _ _ _ y (by exact List.getLast?_concat _), h1]
  simp only [drainStep]
  rw [if_neg (show ¬((200:Nat) ≤ 500 ∧ (500:Nat) < 300) from by norm_num)]
  rw [if_neg (show ¬((500:Nat) = 422) from by norm_num)]
  dsimp only
  rw [if_neg (show ¬(false = true) from by simp)]
  refine ⟨rfl, rfl, ?_, ?_⟩
  · simp [drainFail]
  · show s.attempts ++ [fullPayload a b x] ++ [fullPayload a b y] =
      s.attempts ++ [fullPayload a b x, fullPayload a b y]
    simp


lemma drainLoop_one_attempt (a b : String) (l : String → String)
    (responses : Nat → Resp) (now : String) (p f : Nat) (s : DrainState)
    (hne : s.queue ≠ []) :
    s.attempts.length + 1 ≤ (drainLoop a b l responses now p (f + 1) s).attempts.length := by
  obtain ⟨z, hz⟩ := Option.isSome_iff_exists.mp (List.getLast?_isSome.mpr hne)
  rw [drainLoop_cons _ _ _ _ _ _ _ _ z hz]
  by_cases hc : (drainStep a b l now (responses p) z s).2
  · rw [if_pos hc]
    have h1 : (drainStep a b l now (responses p) z s).1.attempts.length =
        s.attempts.length + 1 := by
      rw [drainStep_attempts]; simp
    calc s.attempts.length + 1
        = (drainStep a b l now (responses p) z s).1.attempts.length := h1.symm
      _ ≤ _ := drainLoop_attempts_ge _ _ _ _ _ _ _ _
  · rw [if_neg hc, drainStep_attempts]
    simp


lemma drainLoop_len (a b : String) (l : String → String)
    (responses : Nat → Resp) (now : String) :
    ∀ (fuel processed : Nat) (s : DrainState),
      (drainLoop a b l responses now processed fuel s).queue.length ≤ s.queue.length := by
  intro fuel
  induction fuel with
  | zero => intro p s; simp [drainLoop]
  | succ f ih =>
    intro p s
    rw [drainLoop]
    cases hq : s.queue.getLast? with
    | none => simp
    | some item =>
      dsimp only
      rcases drainStep_cases a b l now (responses p) item s with ⟨h1, h2, h3⟩ | ⟨h1, h2, h3⟩
      · rw [h3, if_pos rfl]
        refine le_trans (ih (p + 1) _) ?_
        rw [h1, List.length_dropLast]
        omega
      · rw [h3, if_neg (by simp), h1]

lemma trimQueue_nil (m : Int) (st : Status) : trimQueue m [] st = ([], st) := by
  rw [trimQueue]
  split
  · rfl
  · rw [trimLoop.eq_def]
    simp

lemma trySendQueue_notifs (cfg : Config) (localize : String → String)
    (responses : Nat → Resp) (now : String) (s : DrainState) :
    (trySendQueue cfg localize responses now s).notifications = s.notifications + 1 := by
  rw [trySendQueue]
  dsimp only
  by_cases hcred : pyStrip cfg.api_key = "" ∨ pyStrip cfg.site_fid = ""
  · rw [if_pos hcred]
  · rw [if_neg hcred]
    by_cases hms : cfg.max_send ≤ 0
    · rw [if_pos hms]
    · rw [if_neg hms]
      split
      · rw [drainLoop_notifications]
      · rw [drainLoop_notifications]

lemma trySendQueue_queue_of_empty (cfg : Config) (localize : String → String)
    (responses : Nat → Resp) (now : String) (s : DrainState) (h : s.queue = []) :
    (trySendQueue cfg localize responses now s).queue = [] := by
  rw [trySendQueue]
  dsimp only
  by_cases hcred : pyStrip cfg.api_key = "" ∨ pyStrip cfg.site_fid = ""
  · rw [if_pos hcred]
    exact h
  · rw [if_neg hcred, h, trimQueue_nil]
    dsimp only
    by_cases hms : cfg.max_send ≤ 0
    · rw [if_pos hms]
    · rw [if_neg hms]
      dsimp only
      rw [drainLoop_empty _ _ _ _ _ _ _ _ rfl]
      split <;> rfl

lemma trySendQueue_sync (cfg : Config) (localize : String → String)
    (responses : Nat → Resp) (now : String) (s : DrainState)
    (hml : 0 < cfg.max_len) (hlen : s.queue.length ≤ cfg.max_len.toNat)
    (hsync : s.saved = s.queue) :
    (trySendQueue cfg localize responses now s).saved =
      (trySendQueue cfg localize responses now s).queue ∧
    (trySendQueue cfg localize responses now s).queue.length ≤ s.queue.length := by
  by_cases hcred : pyStrip cfg.api_key = "" ∨ pyStrip cfg.site_fid = ""
  · rw [trySendQueue]
    dsimp only
    rw [if_pos hcred]
    exact ⟨hsync, le_refl _⟩
  · push_neg at hcred
    by_cases hms : cfg.max_send ≤ 0
    · rw [trySendQueue]
      dsimp only
      rw [if_neg (by simp [hcred.1, hcred.2])]
      rw [trimQueue_noop _ _ _ hml hlen]
      dsimp only
      rw [if_pos hms]
      exact ⟨hsync, le_refl _⟩
    · rw [trySendQueue_eq_drain cfg localize responses now s hcred.1 hcred.2 hml hlen (by omega)]
      obtain ⟨p1, p2, _, _, _⟩ := postDrain_proj (drainLoop (pyStrip cfg.api_key)
        (pyStrip cfg.site_fid) localize responses now 0 cfg.max_send.toNat (preDrain now s))
      rw [p1, p2]
      exact drainLoop_sync _ _ _ _ _ _ _ _ hsync

lemma adv_fields_keys : ∀ p ∈ ADV_FIELDS, p.2 ≠ "api_key" ∧ p.2 ≠ "site_fid" := by decide

/-! ## Claim C1 — drain stops at first non-2xx, non-422 response -/

/-- C1: on a 3-item queue with a send cap of 2, where the newest item gets
HTTP 200 and the next HTTP 500, exactly the 200 item is removed, the queue
ends with its two oldest items (the 500 item at the newest end), the queue
is persisted, `outage_since_utc` becomes the tick timestamp, and only two
submissions are attempted — the loop stops at the 500 and never reaches the
third item. -/
theorem c1_stop_on_first_failure (cfg : Config) (localize : String → String)
    (responses : Nat → Resp) (now t0 t1 : String) (a b c : Item) (s : DrainState)
    (hk : pyStrip cfg.api_key ≠ "") (hsf : pyStrip cfg.site_fid ≠ "")
    (hml : 3 ≤ cfg.max_len) (hms : cfg.max_send = 2)
    (hq : s.queue = [a, b, c])
    (h0 : responses 0 = .http 200 t0) (h1 : responses 1 = .http 500 t1) :
    (trySendQueue cfg localize responses now s).queue = [a, b] ∧
    (trySendQueue cfg localize responses now s).queue.length = 2 ∧
    (trySendQueue cfg localize responses now s).saved = [a, b] ∧
    (trySendQueue cfg localize responses now s).status.outage_since_utc = some now ∧
    (trySendQueue cfg localize responses now s).attempts =
      s.attempts ++ [fullPayload (pyStrip cfg.api_key) (pyStrip cfg.site_fid) c,
        fullPayload (pyStrip cfg.api_key) (pyStrip cfg.site_fid) b] ∧
    (trySendQueue cfg localize responses now s).attempts.length =
      s.attempts.length + 2 := by
  rw [trySendQueue_eq_drain cfg localize responses now s hk hsf (by omega)
    (by rw [hq]; simp only [List.length_cons, List.length_nil]; omega) (by omega)]
  rw [show cfg.max_send.toNat = 0 + 2 from by omega]
  obtain ⟨hQ, hS, hO, hA⟩ := drainLoop_200_500 (pyStrip cfg.api_key)
    (pyStrip cfg.site_fid) localize responses now t0 t1 0 0 [a] b c
    (preDrain now s) (by simp [preDrain, hq]) h0 h1
  obtain ⟨p1, p2, p3, p4, p5⟩ := postDrain_proj (drainLoop (pyStrip cfg.api_key)
    (pyStrip cfg.site_fid) localize responses now 0 (0 + 2) (preDrain now s))
  refine ⟨?_, ?_, ?_, ?_, ?_, ?_⟩
  · rw [p1, hQ]; rfl
  · rw [p1, hQ]; rfl
  · rw [p2, hS]; rfl
  · rw [p3, hO]
  · rw [p4, hA]; rfl
  · rw [p4, hA]
    simp [preDrain]

/-- C1 witness: the scenario run on concrete items and responses. -/
theorem c1_stop_on_first_failure_witness :
    (trySendQueue ⟨"key", "site", 4032, 2⟩ wLocal
      (fun n => if n = 0 then .http 200 "ok" else .http 500 "boom") "T"
      { queue := [wI1, wI2, wI3] }).queue = [wI1, wI2] ∧
    (trySendQueue ⟨"key", "site", 4032, 2⟩ wLocal
      (fun n => if n = 0 then .http 200 "ok" else .http 500 "boom") "T"
      { queue := [wI1, wI2, wI3] }).status.outage_since_utc = some "T" := by
  have h := c1_stop_on_first_failure ⟨"key", "site", 4032, 2⟩ wLocal
    (fun n => if n = 0 then .http 200 "ok" else .http 500 "boom") "T" "ok" "boom"
    wI1 wI2 wI3 { queue := [wI1, wI2, wI3] }
    (by decide) (by decide) (by norm_num) rfl rfl rfl rfl
  exact ⟨h.1, h.2.2.2.1⟩

/-! ## Claim C3 — persistence of queue mutations -/

/-- C3 counterexample: with `queue_max_len = 0`, a tick whose collection
produced no item trims (clears) the in-memory queue but never persists, so
the stored document still holds the old item: reloading would not reproduce
the in-memory queue. -/
theorem c3_trim_without_persist :
    (tick ⟨"", "", 0, 2⟩ wLocal (fun _ => .netErr "e") "T" none
      { queue := [wI1], saved := [wI1] }).queue = [] ∧
    (tick ⟨"", "", 0, 2⟩ wLocal (fun _ => .netErr "e") "T" none
      { queue := [wI1], saved := [wI1] }).saved = [wI1] :=
  ⟨rfl, rfl⟩

/-- C3 amended: enqueue, drain-removal and clear do persist the full queue
before returning, so with a fixed `queue_max_len > 0` and a store in sync
with the queue, every tick preserves the store/queue round-trip and the
length bound; but a trim that removes items outside the enqueue path (only
possible after `queue_max_len` was lowered, or set ≤ 0, below the current
length) mutates the queue without persisting it. -/
theorem c3_roundtrip_invariant (cfg : Config) (localize : String → String)
    (responses : Nat → Resp) (now : String) (builtItem : Option Item)
    (s : DrainState) (hml : 0 < cfg.max_len)
    (hlen : s.queue.length ≤ cfg.max_len.toNat) (hsync : s.saved = s.queue) :
    (tick cfg localize responses now builtItem s).saved =
      (tick cfg localize responses now builtItem s).queue ∧
    (tick cfg localize responses now builtItem s).queue.length ≤ cfg.max_len.toNat ∧
    (clearQueue s).saved = (clearQueue s).queue := by
  have hmain : ∀ s' : DrainState, s'.saved = s'.queue →
      s'.queue.length ≤ cfg.max_len.toNat →
      (trySendQueue cfg localize responses now s').saved =
        (trySendQueue cfg localize responses now s').queue ∧
      (trySendQueue cfg localize responses now s').queue.length ≤ cfg.max_len.toNat := by
    intro s' h1 h2
    obtain ⟨q1, q2⟩ := trySendQueue_sync cfg localize responses now s' hml h2 h1
    exact ⟨q1, le_trans q2 h2⟩
  rw [tick]
  dsimp only
  by_cases hb : (0 < cfg.max_len ∧ builtItem.isSome)
  · rw [if_pos hb]
    have hthen := hmain
      { s with
        queue := (trimQueue cfg.max_len (s.queue ++ [builtItem.getD []]) s.status).1,
        saved := (trimQueue cfg.max_len (s.queue ++ [builtItem.getD []]) s.status).1,
        status := { (trimQueue cfg.max_len (s.queue ++ [builtItem.getD []]) s.status).2 with
                    queue_len := (trimQueue cfg.max_len (s.queue ++ [builtItem.getD []]) s.status).1.length } }
      rfl (trimQueue_length _ _ _)
    exact ⟨hthen.1, hthen.2, rfl⟩
  · rw [if_neg hb]
    rw [trimQueue_noop _ _ _ hml hlen]
    dsimp only
    have helse := hmain
      { s with
        queue := s.queue,
        status := { s.status with queue_len := s.queue.length } }
      hsync hlen
    exact ⟨helse.1, helse.2, rfl⟩

/-- C3 witness: one synced tick with an enqueued item keeps store and queue
in sync. -/
theorem c3_roundtrip_invariant_witness :
    (tick ⟨"", "", 10, 2⟩ wLocal (fun _ => .netErr "e") "T" (some wI2)
      { queue := [wI1], saved := [wI1] }).saved =
    (tick ⟨"", "", 10, 2⟩ wLocal (fun _ => .netErr "e") "T" (some wI2)
      { queue := [wI1], saved := [wI1] }).queue :=
  (c3_roundtrip_invariant ⟨"", "", 10, 2⟩ wLocal (fun _ => .netErr "e") "T"
    (some wI2) { queue := [wI1], saved := [wI1] } (by norm_num) (by decide) rfl).1

/-! ## Claim C5 — HTTP 422 is a permanent drop, loop continues -/

/-- C5: a 422 on the newest item removes it from the queue, increments the
permanent-drop counter by exactly 1, records the drop reason, leaves
`outage_since_utc` untouched, and the loop continues: with at least one more
item and cap ≥ 2, a second submission is attempted within the same call. -/
theorem c5_http_422_drop_and_continue (cfg : Config) (localize : String → String)
    (responses : Nat → Resp) (now txt : String) (x : Item) (qs : List Item)
    (s : DrainState) (hq : s.queue = qs ++ [x])
    (hk : pyStrip cfg.api_key ≠ "") (hsf : pyStrip cfg.site_fid ≠ "")
    (hml : 0 < cfg.max_len) (hlen : s.queue.length ≤ cfg.max_len.toNat)
    (hms : 2 ≤ cfg.max_send) (hqs : qs ≠ [])
    (h0 : responses 0 = .http 422 txt) :
    ((drainStep (pyStrip cfg.api_key) (pyStrip cfg.site_fid) localize now
        (.http 422 txt) x s).1.queue = qs ∧
     (drainStep (pyStrip cfg.api_key) (pyStrip cfg.site_fid) localize now
        (.http 422 txt) x s).1.saved = qs ∧
     (drainStep (pyStrip cfg.api_key) (pyStrip cfg.site_fid) localize now
        (.http 422 txt) x s).1.status.dropped_422_count =
          s.status.dropped_422_count + 1 ∧
     (drainStep (pyStrip cfg.api_key) (pyStrip cfg.site_fid) localize now
        (.http 422 txt) x s).1.status.last_drop_reason = some ("HTTP 422: " ++ txt) ∧
     (drainStep (pyStrip cfg.api_key) (pyStrip cfg.site_fid) localize now
        (.http 422 txt) x s).1.status.outage_since_utc = s.status.outage_since_utc ∧
     (drainStep (pyStrip cfg.api_key) (pyStrip cfg.site_fid) localize now
        (.http 422 txt) x s).2 = true) ∧
    s.attempts.length + 2 ≤ (trySendQueue cfg localize responses now s).attempts.length := by
  constructor
  · simp only [drainStep]
    rw [if_neg (show ¬((200:Nat) ≤ 422 ∧ (422:Nat) < 300) from by norm_num)]
    rw [if_pos (show True from trivial)]
    refine ⟨?_, ?_, rfl, rfl, rfl, rfl⟩
    · show s.queue.dropLast = qs
      rw [hq, List.dropLast_concat]
    · show s.queue.dropLast = qs
      rw [hq, List.dropLast_concat]
  · rw [trySendQueue_eq_drain cfg localize responses now s hk hsf hml hlen (by omega)]
    rw [(postDrain_proj _).2.2.2.1]
    rw [show cfg.max_send.toNat = ((cfg.max_send.toNat - 2) + 1) + 1 from by omega]
    have hx : (preDrain now s).queue.getLast? = some x := by
      show s.queue.getLast? = some x
      rw [hq]; exact List.getLast?_concat _
    rw [drainLoop_cons _ _ _ _ _ _ _ _ x hx, h0]
    simp only [drainStep]
    rw [if_neg (show ¬((200:Nat) ≤ 422 ∧ (422:Nat) < 300) from by norm_num)]
    rw [if_pos (show True from trivial)]
    dsimp only
    rw [if_pos (show true = true from rfl)]
    have hpq : (preDrain now s).queue = qs ++ [x] := hq
    rw [hpq, List.dropLast_concat]
    refine le_trans (le_of_eq ?_) (drainLoop_one_attempt _ _ _ _ _ _ _ _ ?_)
    · show s.attempts.length + 2 =
        ((preDrain now s).attempts ++ [fullPayload (pyStrip cfg.api_key)
          (pyStrip cfg.site_fid) x]).length + 1
      simp [preDrain]
    · show qs ≠ []
      exact hqs

/-- C5 witness: a 422 on a 2-item queue with cap 144 drops the newest item
and a second attempt is made. -/
theorem c5_http_422_witness :
    0 + 2 ≤ (trySendQueue ⟨"key", "site", 4032, 144⟩ wLocal
      (fun n => if n = 0 then .http 422 "bad" else .http 200 "ok") "T"
      { queue := [wI1, wI2] }).attempts.length :=
  (c5_http_422_drop_and_continue ⟨"key", "site", 4032, 144⟩ wLocal
    (fun n => if n = 0 then .http 422 "bad" else .http 200 "ok") "T" "bad"
    wI2 [wI1] { queue := [wI1, wI2] } rfl (by decide) (by decide) (by norm_num)
    (by decide) (by norm_num) (by simp) rfl).2

/-! ## Claim C6 — missing credentials leave the queue untouched -/

/-- C6: with missing credentials the drain call records the error fields,
sets `outage_since_utc` exactly when it was previously null (otherwise keeps
the old value), upserts the OutageIssue, emits a status notification, makes
no submission attempt, and returns with queue and store untouched. -/
theorem c6_missing_credentials (cfg : Config) (localize : String → String)
    (responses : Nat → Resp) (now : String) (s : DrainState)
    (hcred : pyStrip cfg.api_key = "" ∨ pyStrip cfg.site_fid = "") :
    (trySendQueue cfg localize responses now s).queue = s.queue ∧
    (trySendQueue cfg localize responses now s).saved = s.saved ∧
    (trySendQueue cfg localize responses now s).attempts = s.attempts ∧
    (trySendQueue cfg localize responses now s).status.last_error_utc = some now ∧
    (trySendQueue cfg localize responses now s).status.last_error_message =
      some "Missing api_key/site_fid" ∧
    (trySendQueue cfg localize responses now s).status.outage_since_utc =
      some (s.status.outage_since_utc.getD now) ∧
    (s.status.outage_since_utc = none →
      (trySendQueue cfg localize responses now s).status.outage_since_utc = some now) ∧
    (∀ t, s.status.outage_since_utc = some t →
      (trySendQueue cfg localize responses now s).status.outage_since_utc = some t) ∧
    (trySendQueue cfg localize responses now s).issue =
      some (outageMsg (localize (s.status.outage_since_utc.getD now))
        "Missing api_key/site_fid") ∧
    (trySendQueue cfg localize responses now s).notifications = s.notifications + 1 := by
  rw [trySendQueue]
  dsimp only
  rw [if_pos hcred]
  refine ⟨rfl, rfl, rfl, rfl, rfl, rfl, ?_, ?_, rfl, rfl⟩
  · intro h
    show some (s.status.outage_since_utc.getD now) = some now
    rw [h]
    rfl
  · intro t ht
    show some (s.status.outage_since_utc.getD now) = some t
    rw [ht]
    rfl

/-- C6 witness: a blank api_key leaves a 1-item queue unchanged and opens
the outage at the tick timestamp. -/
theorem c6_missing_credentials_witness :
    (trySendQueue ⟨"   ", "site", 10, 2⟩ wLocal (fun _ => .netErr "e") "T"
      { queue := [wI1] }).queue = [wI1] ∧
    (trySendQueue ⟨"   ", "site", 10, 2⟩ wLocal (fun _ => .netErr "e") "T"
      { queue := [wI1] }).status.outage_since_utc = some "T" := by
  have h := c6_missing_credentials ⟨"   ", "site", 10, 2⟩ wLocal
    (fun _ => .netErr "e") "T" { queue := [wI1] } (Or.inl (by decide))
  exact ⟨h.1, h.2.2.2.2.2.1⟩

/-! ## Claim C7 — outage set once per failure streak, cleared on success -/

/-- C7: per submission outcome, a 2xx success resets `outage_since_utc` to
null; a transient failure (non-2xx non-422 HTTP or transport error) sets it
to the current timestamp exactly when it was null and keeps the existing
value otherwise; a 422 leaves it unchanged. -/
theorem c7_outage_once_per_streak (apiKey siteFid : String)
    (localize : String → String) (now : String) (resp : Resp) (item : Item)
    (s : DrainState) :
    (resp.isSuccess = true →
      (drainStep apiKey siteFid localize now resp item s).1.status.outage_since_utc = none) ∧
    (resp.isTransient = true →
      (drainStep apiKey siteFid localize now resp item s).1.status.outage_since_utc =
        some (s.status.outage_since_utc.getD now)) ∧
    (∀ txt, resp = .http 422 txt →
      (drainStep apiKey siteFid localize now resp item s).1.status.outage_since_utc =
        s.status.outage_since_utc) := by
  refine ⟨?_, ?_, ?_⟩
  · intro h
    cases resp with
    | http st txt =>
      simp only [Resp.isSuccess, Bool.and_eq_true, decide_eq_true_eq] at h
      simp only [drainStep]
      rw [if_pos (by omega)]
    | netErr msg => simp [Resp.isSuccess] at h
  · intro h
    cases resp with
    | http st txt =>
      by_cases h1 : 200 ≤ st ∧ st < 300
      · exfalso
        simp [Resp.isTransient, h1.1, h1.2] at h
      · by_cases h2 : st = 422
        · exfalso
          simp [Resp.isTransient, h2] at h
        · simp only [drainStep]
          rw [if_neg h1, if_neg h2]
          rfl
    | netErr msg =>
      simp only [drainStep]
      rfl
  · intro txt h
    subst h
    simp only [drainStep]
    rw [if_neg (by omega)]
    simp

/-- C7 witness: a 204 clears the outage marker, a transport error opens it
at the tick timestamp, a 422 leaves it unchanged. -/
theorem c7_outage_once_per_streak_witness :
    (drainStep "k" "s" wLocal "T" (.http 204 "") wI1
      { queue := [wI1] }).1.status.outage_since_utc = none ∧
    (drainStep "k" "s" wLocal "T" (.netErr "boom") wI1
      { queue := [wI1] }).1.status.outage_since_utc =
      some ((({ queue := [wI1] } : DrainState).status.outage_since_utc).getD "T") ∧
    (drainStep "k" "s" wLocal "T" (.http 422 "bad") wI1
      { queue := [wI1] }).1.status.outage_since_utc =
      ({ queue := [wI1] } : DrainState).status.outage_since_utc :=
  ⟨(c7_outage_once_per_streak "k" "s" wLocal "T" (.http 204 "") wI1
      { queue := [wI1] }).1 (by decide),
   (c7_outage_once_per_streak "k" "s" wLocal "T" (.netErr "boom") wI1
      { queue := [wI1] }).2.1 (by decide),
   (c7_outage_once_per_streak "k" "s" wLocal "T" (.http 422 "bad") wI1
      { queue := [wI1] }).2.2 "bad" rfl⟩

/-! ## Claim C8 — queue items never contain credentials -/

/-- C8: every item built by `_build_queue_item` has no `api_key` and no
`site_fid` key — its keys come only from the grid field, the timestamp, the
client tag and the `ADV_FIELDS` API names — and credentials are merged into
the submission payload only at send time, as the two fields prepended by
`full_payload`. -/
theorem c8_items_contain_no_credentials (pf : String → Option ℚ)
    (states : String → Option StateObj) (confGet : String → Option String)
    (nowTs : String) (item : Item)
    (h : buildQueueItem pf states confGet nowTs = some item) :
    ("api_key" ∉ item.map Prod.fst ∧ "site_fid" ∉ item.map Prod.fst) ∧
    (∀ (apiKey siteFid : String) (it : Item),
      fullPayload apiKey siteFid it =
        ("api_key", JVal.str apiKey) :: ("site_fid", JVal.str siteFid) :: it) := by
  refine ⟨?_, fun _ _ _ => rfl⟩
  rw [buildQueueItem] at h
  cases hg : confGet "em_power_grid_entity" with
  | none => rw [hg] at h; exact absurd h (by simp)
  | some gridEnt =>
    rw [hg] at h
    dsimp only at h
    by_cases hge : gridEnt = ""
    · rw [if_pos hge] at h
      exact absurd h (by simp)
    · rw [if_neg hge] at h
      cases hc : convertForField pf states gridEnt "em_power_grid" with
      | none => rw [hc] at h; exact absurd h (by simp)
      | some gv =>
        rw [hc] at h
        dsimp only at h
        simp only [Option.some.injEq] at h
        subst h
        constructor <;>
        · intro hmem
          simp only [List.map_append, List.mem_append, List.mem_map,
            List.mem_filterMap] at hmem
          rcases hmem with h1 | ⟨pr, ⟨q, hq, hfq⟩, hkey⟩
          · simp at h1
          · have hpr1 : pr.1 = q.2 := by
              cases hcg : confGet q.1 with
              | none => rw [hcg] at hfq; simp at hfq
              | some ent =>
                rw [hcg] at hfq
                dsimp only at hfq
                by_cases he : ent = ""
                · rw [if_pos he] at hfq; simp at hfq
                · rw [if_neg he] at hfq
                  cases hcv : convertForField pf states ent q.2 with
                  | none => rw [hcv] at hfq; simp at hfq
                  | some v =>
                    rw [hcv] at hfq
                    dsimp only at hfq
                    simp only [Option.some.injEq] at hfq
                    rw [← hfq]
            obtain ⟨hk1, hk2⟩ := adv_fields_keys q hq
            rw [hpr1] at hkey
            first
            | exact hk1 hkey
            | exact hk2 hkey

/-- C8 witness: a concretely built item carries neither credential key. -/
theorem c8_items_contain_no_credentials_witness :
    "api_key" ∉ ([("em_power_grid", JVal.int (pyRound 1)),
      ("datapoint_ts", JVal.str "TS"),
      ("submit_cli", JVal.str "emf_0.1")] : Item).map Prod.fst :=
  (c8_items_contain_no_credentials (fun _ => some 1)
    (fun _ => some ⟨"5", some "W"⟩)
    (fun k => if k = "em_power_grid_entity" then some "sensor.grid" else none)
    "TS" _ rfl).1.1

/-! ## Claim C9 — tick always trims and drains, even without a new item -/

/-- C9: when collection yields no item, the tick still trims and still
drains the existing backlog — under valid credentials and a positive cap the
newest backlog item is submitted (the queue shrinks on a 200); and when
`queue_max_len ≤ 0` the tick still trims (clearing the queue) and still
performs the drain call (one status notification is emitted). -/
theorem c9_tick_always_trims_and_drains (cfg : Config)
    (localize : String → String) (responses : Nat → Resp) (now : String)
    (s : DrainState) :
    (∀ (x : Item) (qs : List Item) (t0 : String),
      pyStrip cfg.api_key ≠ "" → pyStrip cfg.site_fid ≠ "" →
      0 < cfg.max_len → s.queue.length ≤ cfg.max_len.toNat → 0 < cfg.max_send →
      s.queue = qs ++ [x] → responses 0 = .http 200 t0 →
      (tick cfg localize responses now none s).queue.length < s.queue.length ∧
      (∃ rest, (tick cfg localize responses now none s).attempts =
        s.attempts ++ fullPayload (pyStrip cfg.api_key) (pyStrip cfg.site_fid) x :: rest)) ∧
    (∀ builtItem : Option Item, cfg.max_len ≤ 0 →
      (tick cfg localize responses now builtItem s).queue = [] ∧
      (tick cfg localize responses now builtItem s).notifications = s.notifications + 1) := by
  constructor
  · intro x qs t0 hk hsf hml hlen hms hq h0
    rw [tick]
    dsimp only
    rw [if_neg (by simp)]
    rw [trimQueue_noop _ _ _ hml hlen]
    dsimp only
    rw [trySendQueue_eq_drain cfg localize responses now { s with queue := s.queue, status := { s.status with queue_len := s.queue.length } } hk hsf hml hlen (by omega)]
    obtain ⟨p1, _, _, p4, _⟩ := postDrain_proj (drainLoop (pyStrip cfg.api_key) (pyStrip cfg.site_fid) localize responses now 0 cfg.max_send.toNat (preDrain now { s with queue := s.queue, status := { s.status with queue_len := s.queue.length } }))
    rw [p1, p4]
    rw [show cfg.max_send.toNat = (cfg.max_send.toNat - 1) + 1 from by omega]
    have hx : (preDrain now { s with queue := s.queue, status := { s.status with queue_len := s.queue.length } }).queue.getLast? = some x := by
      show s.queue.getLast? = some x
      rw [hq]; exact List.getLast?_concat _
    rw [drainLoop_cons _ _ _ _ _ _ _ _ x hx, h0]
    simp only [drainStep]
    rw [if_pos (show (200:Nat) ≤ 200 ∧ (200:Nat) < 300 from by norm_num)]
    dsimp only
    rw [if_pos (show true = true from rfl)]
    have hpq : (preDrain now { s with queue := s.queue, status := { s.status with queue_len := s.queue.length } }).queue = qs ++ [x] := hq
    rw [hpq, List.dropLast_concat]
    constructor
    · refine lt_of_le_of_lt (drainLoop_len _ _ _ _ _ _ _ _) ?_
      show qs.length < s.queue.length
      rw [hq]
      simp
    · obtain ⟨t, ht⟩ := drainLoop_attempts_prefix (pyStrip cfg.api_key)
        (pyStrip cfg.site_fid) localize responses now (cfg.max_send.toNat - 1) (0 + 1) _
      rw [ht]
      refine ⟨t, ?_⟩
      show (s.attempts ++ [fullPayload (pyStrip cfg.api_key) (pyStrip cfg.site_fid) x]) ++ t = _
      simp
  · intro builtItem hml0
    rw [tick]
    dsimp only
    rw [if_neg (fun h => absurd h.1 (by omega))]
    rw [show trimQueue cfg.max_len s.queue s.status = ([], s.status) from by
      rw [trimQueue, if_pos hml0]]
    dsimp only
    constructor
    · exact trySendQueue_queue_of_empty _ _ _ _ _ rfl
    · exact trySendQueue_notifs _ _ _ _ _

/-- C9 witness: a tick with no collected item still delivers the newest
backlog item, and a tick with `queue_max_len = 0` still notifies. -/
theorem c9_tick_always_trims_and_drains_witness :
    (tick ⟨"key", "site", 4032, 144⟩ wLocal (fun _ => .http 200 "ok") "T" none
      { queue := [wI1, wI2] }).queue.length <
      ({ queue := [wI1, wI2] } : DrainState).queue.length ∧
    (tick ⟨"key", "site", 0, 144⟩ wLocal (fun _ => .http 200 "ok") "T" (some wI3)
      { queue := [wI1, wI2] }).queue = [] :=
  ⟨((c9_tick_always_trims_and_drains ⟨"key", "site", 4032, 144⟩ wLocal
      (fun _ => .http 200 "ok") "T" { queue := [wI1, wI2] }).1 wI2 [wI1] "ok"
      (by decide) (by decide) (by norm_num) (by decide) (by norm_num) rfl rfl).1,
   ((c9_tick_always_trims_and_drains ⟨"key", "site", 0, 144⟩ wLocal
      (fun _ => .http 200 "ok") "T" { queue := [wI1, wI2] }).2 (some wI3)
      (by norm_num)).1⟩
